import Mathlib

/-
Verification of the porydex Pokemon schema module
(porydex/db/schema/pokemon.py).

The module is declarative SQLAlchemy schema metadata.  The embedding below
models, faithfully to the source:

  * the rows of the declared tables as Lean structures;
  * the `_current_generation_id` hybrid in both of its forms: the in-memory
    Python getter (which calls `max` over the loaded `_by_generation` keys and
    therefore raises `ValueError` on an empty collection, modelled as
    `Except.error`) and the query expression
    `coalesce(bindparam, (SELECT MAX(generation_id) ...))` (where SQL `MAX`
    over an empty set is `NULL`, modelled as `none`);
  * the `_current_gpf` relationship join and the `types` / `all_types`
    association proxies;
  * insertion checks derived from the constraints each table actually
    declares.  `GenerationPokemonForm` attaches its composite foreign keys
    through `__table_args__`; `GamePokemonForm` assigns its tuple of composite
    constraints to a misspelled attribute `__tableargs__`, which the
    declarative mapper never reads, so only its column-level foreign keys are
    attached to the table.

The ambient generation context (`session.generation_id`, read by the getter,
and the `session_generation_id` bind parameter of the expression) is modelled
as an explicit `Option Nat` argument.
-/

set_option autoImplicit false

/-- A row of `generation_pokemon_forms`: a generation that a Pokemon form
appears in, together with its slot-ordered list of type ids (the `types`
relationship, ordered by `PokemonType.slot`). -/
structure GenerationPokemonForm where
  generation_id : Nat
  pokemon_id : Nat
  form_id : Nat
  types : List Nat
deriving Repr, DecidableEq

/-- A row of `pokemon`: one species. -/
structure Pokemon where
  id : Nat
  identifier : String
  preevolution_id : Option Nat
  order : Nat
deriving Repr, DecidableEq

/-- A row of `pokemon_forms`: a specific form of a Pokemon. -/
structure PokemonForm where
  pokemon_id : Nat
  form_id : Nat
  identifier : String
  is_default : Bool
  order : Nat
deriving Repr, DecidableEq

/-- A row of `generation_pokemon`: a generation that a Pokemon appears in. -/
structure GenerationPokemon where
  generation_id : Nat
  pokemon_id : Nat
deriving Repr, DecidableEq

/-- A row of the external `games` table, which the source references by
foreign key: its id and the generation it belongs to. -/
structure Game where
  id : Nat
  generation_id : Nat
deriving Repr, DecidableEq

/-- A row of `game_pokemon_forms`: a game that a Pokemon form appears in,
with a redundant `generation_id` column and a temporarily nullable
`ingame_internal_id`. -/
structure GamePokemonForm where
  game_id : Nat
  pokemon_id : Nat
  form_id : Nat
  generation_id : Nat
  ingame_internal_id : Option Nat
deriving Repr, DecidableEq

/-- A database state over the declared tables and the external tables they
reference (`generations` and `games` are kept minimal: only the columns the
declared foreign keys target). -/
structure DB where
  generations : List Nat
  games : List Game
  pokemon : List Pokemon
  pokemon_forms : List PokemonForm
  generation_pokemon : List GenerationPokemon
  generation_pokemon_forms : List GenerationPokemonForm
  game_pokemon_forms : List GamePokemonForm
deriving Repr, DecidableEq

/-- Python `max` over a list, and equally SQL `MAX` over a set of values:
the largest element, absent for the empty list.  (CPython `max` raises
`ValueError` on an empty sequence; SQL `MAX` returns `NULL`.  Callers model
whichever failure mode their path has.) -/
def pyMax : List Nat → Option Nat
  | [] => none
  | x :: xs => some (xs.foldl max x)

/-- SQL `coalesce` of two nullable values: the first when it is non-`NULL`,
otherwise the second. -/
def coalesce (a b : Option Nat) : Option Nat :=
  match a with
  | some x => some x
  | none => b

/-- The `_by_generation` collection of the form `(pid, fid)`: the rows of
`generation_pokemon_forms` whose `pokemon_id` and `form_id` match.  (The
source materialises this as an ordered dictionary keyed by `generation_id`;
the primary key of the table makes the keys distinct within one form.) -/
def byGenerationOf (rows : List GenerationPokemonForm) (pid fid : Nat) :
    List GenerationPokemonForm :=
  rows.filter (fun r => r.pokemon_id == pid && r.form_id == fid)

/-- The generation ids of a `_by_generation` collection (its dictionary
keys). -/
def generationKeys (byGen : List GenerationPokemonForm) : List Nat :=
  byGen.map (fun r => r.generation_id)

/-- In-memory form of `PokemonForm._current_generation_id` (the
`hybrid_property` getter): the ambient `generation_id` of the session when it
is set, otherwise Python `max(self._by_generation.keys())` — which raises
`ValueError` when the form has no generation rows, modelled as
`Except.error`. -/
def current_generation_id_mem (sessionGen : Option Nat)
    (byGen : List GenerationPokemonForm) : Except String Nat :=
  match sessionGen with
  | some g => Except.ok g
  | none =>
    match pyMax (generationKeys byGen) with
    | some m => Except.ok m
    | none => Except.error "max() arg is an empty sequence"

/-- Query form of `PokemonForm._current_generation_id` (the `.expression`):
`coalesce(bindparam(session_generation_id), (SELECT MAX(generation_id) FROM
generation_pokemon_forms WHERE pokemon_id = pid AND form_id = fid))`.  The
correlated scalar subquery ranges over exactly the rows of this form. -/
def current_generation_id_expr (sessionGen : Option Nat)
    (rows : List GenerationPokemonForm) (pid fid : Nat) : Option Nat :=
  coalesce sessionGen (pyMax (generationKeys (byGenerationOf rows pid fid)))

/-- The `_current_gpf` relationship: the `GenerationPokemonForm` row of this
form whose `generation_id` equals `_current_generation_id`.  The relationship
is loaded by query (`lazy` is `subquery`), so the join condition uses the
expression form; an SQL comparison against a `NULL` current generation
matches no row. -/
def current_gpf (sessionGen : Option Nat)
    (rows : List GenerationPokemonForm) (pid fid : Nat) :
    Option GenerationPokemonForm :=
  match current_generation_id_expr sessionGen rows pid fid with
  | none => none
  | some g => (byGenerationOf rows pid fid).find? (fun r => r.generation_id == g)

/-- `PokemonForm.types`: association proxy to `_current_gpf.types`; absent
when no current row exists. -/
def PokemonForm.types (sessionGen : Option Nat)
    (rows : List GenerationPokemonForm) (pid fid : Nat) : Option (List Nat) :=
  (current_gpf sessionGen rows pid fid).map (fun r => r.types)

/-- `PokemonForm.all_types`: association proxy over `_by_generation`, the
mapping from each generation the form appears in to that row type list.  It
reads no session state, so it is independent of the ambient generation
context by construction. -/
def PokemonForm.all_types (rows : List GenerationPokemonForm) (pid fid : Nat) :
    List (Nat × List Nat) :=
  (byGenerationOf rows pid fid).map (fun r => (r.generation_id, r.types))

/-- Forgetting the error message of a fallible computation, for comparison
with a nullable query result. -/
def exceptToOption {α : Type} : Except String α → Option α
  | Except.ok a => some a
  | Except.error _ => none

/-- Insertion into `generation_pokemon_forms`, checking exactly the
constraints the source declares on the table: the primary key
`(generation_id, pokemon_id, form_id)`, the column foreign key
`generation_id -> generations.id`, and the two composite foreign keys
attached through `__table_args__` — `pokemon_form_key()` referencing
`(pokemon_forms.pokemon_id, pokemon_forms.form_id)` and
`generation_pokemon_key()` referencing
`(generation_pokemon.generation_id, generation_pokemon.pokemon_id)`.
Returns `none` when a constraint rejects the row. -/
def insertGenerationPokemonForm (db : DB) (r : GenerationPokemonForm) :
    Option DB :=
  if (!(db.generation_pokemon_forms.any (fun x =>
          x.generation_id == r.generation_id && x.pokemon_id == r.pokemon_id
            && x.form_id == r.form_id)))
      && db.generations.contains r.generation_id
      && db.pokemon_forms.any (fun pf =>
           pf.pokemon_id == r.pokemon_id && pf.form_id == r.form_id)
      && db.generation_pokemon.any (fun gp =>
           gp.generation_id == r.generation_id
             && gp.pokemon_id == r.pokemon_id)
  then some { db with
    generation_pokemon_forms := db.generation_pokemon_forms ++ [r] }
  else none

/-- Insertion into `game_pokemon_forms`, checking exactly the constraints the
source attaches to the table.  The source assigns its tuple of composite
constraints — `generation_pokemon_form_key()` and the pair
`(game_id, generation_id) -> (games.id, games.generation_id)` — to the
attribute `__tableargs__`, a misspelling of `__table_args__` that the
declarative mapper never reads, so neither composite constraint reaches the
table.  What remains attached: the primary key
`(game_id, pokemon_id, form_id)` and the column foreign keys
`game_id -> games.id` and `generation_id -> generations.id`. -/
def insertGamePokemonForm (db : DB) (r : GamePokemonForm) : Option DB :=
  if (!(db.game_pokemon_forms.any (fun x =>
          x.game_id == r.game_id && x.pokemon_id == r.pokemon_id
            && x.form_id == r.form_id)))
      && db.games.any (fun g => g.id == r.game_id)
      && db.generations.contains r.generation_id
  then some { db with game_pokemon_forms := db.game_pokemon_forms ++ [r] }
  else none

/-- Outcome of a localized name lookup. -/
inductive NameLookup where
  | found (name : String)
  | notFound
deriving Repr, DecidableEq

/-- Modelled from the spec: the `ByLanguage` mixin that `Pokemon` and
`PokemonForm` inherit lives in the language module of this repository, which
is not among the given sources.  Per the spec it is a keyed lookup by
language id over the owned name rows: the row for the requested language when
one exists; otherwise, when a fallback language is configured, the fallback
language row; `NotFound` when neither exists or when no fallback is
configured. -/
def byLanguageLookup (names : List (Nat × String)) (fallback : Option Nat)
    (lang : Nat) : NameLookup :=
  match names.lookup lang with
  | some n => NameLookup.found n
  | none =>
    match fallback with
    | none => NameLookup.notFound
    | some f =>
      match names.lookup f with
      | some n => NameLookup.found n
      | none => NameLookup.notFound

/-- Modelled from the spec: the source declares `is_default` as a plain
non-nullable boolean column with no constraint, and the spec states the
one-default-form-per-species rule as a data invariant verified on load (load
code is not among the given sources).  The invariant, as the spec words it:
for each `pokemon_id` occurring in `pokemon_forms`, exactly one row with that
`pokemon_id` has `is_default = true`. -/
def exactlyOneDefaultForm (forms : List PokemonForm) : Bool :=
  (forms.map (fun f => f.pokemon_id)).all (fun pid =>
    (forms.filter (fun f => f.pokemon_id == pid && f.is_default)).length == 1)

/-- The `types` accessor as a read operation with explicit state passing:
it evaluates a pure function of the database state and leaves the state
unchanged. -/
def readTypes (db : DB) (sessionGen : Option Nat) (pid fid : Nat) :
    Option (List Nat) × DB :=
  (PokemonForm.types sessionGen db.generation_pokemon_forms pid fid, db)

/-- The `all_types` accessor as a read operation with explicit state
passing. -/
def readAllTypes (db : DB) (pid fid : Nat) :
    List (Nat × List Nat) × DB :=
  (PokemonForm.all_types db.generation_pokemon_forms pid fid, db)

/-- Fixture: a form `(7, 2)` with `generation_pokemon_forms` rows in
generations 1, 3 and 5 whose type lists are `[10]`, `[20, 30]` and `[40]`
(the T1, T3, T5 of the spec example). -/
def rows135 : List GenerationPokemonForm :=
  [⟨1, 7, 2, [10]⟩, ⟨3, 7, 2, [20, 30]⟩, ⟨5, 7, 2, [40]⟩]

/-- Fixture for the games constraint: game 1 belongs to generation 1, and
generation 2 also exists. -/
def db3 : DB :=
  { generations := [1, 2]
    games := [⟨1, 1⟩]
    pokemon := [⟨1, "bulbasaur", none, 1⟩]
    pokemon_forms := [⟨1, 1, "bulbasaur", true, 1⟩]
    generation_pokemon := [⟨1, 1⟩, ⟨2, 1⟩]
    generation_pokemon_forms := []
    game_pokemon_forms := [] }

/-- Fixture for the composite chain: pokemon 9 and generation 4 exist, and
`generation_pokemon` holds `(4, 9)`, but `pokemon_forms` has no row
`(9, 9)`. -/
def db6 : DB :=
  { generations := [4]
    games := [⟨1, 4⟩]
    pokemon := [⟨9, "missingno", none, 9⟩]
    pokemon_forms := []
    generation_pokemon := [⟨4, 9⟩]
    generation_pokemon_forms := []
    game_pokemon_forms := [] }

/-- Fixture: localized name rows for languages 1 and 9. -/
def names1 : List (Nat × String) := [(1, "Fushigidane"), (9, "Bulbasaur")]

theorem foldl_max_mem (xs : List Nat) :
    ∀ x : Nat, xs.foldl max x = x ∨ xs.foldl max x ∈ xs := by
  induction xs with
  | nil => intro x; exact Or.inl rfl
  | cons y ys ih =>
    intro x
    rw [List.foldl_cons]
    rcases ih (max x y) with h | h
    · rcases max_choice x y with h2 | h2
      · exact Or.inl (h.trans h2)
      · right; rw [h, h2]; exact List.mem_cons_self y ys
    · exact Or.inr (List.mem_cons_of_mem y h)

theorem pyMax_mem {l : List Nat} {m : Nat} (h : pyMax l = some m) : m ∈ l := by
  cases l with
  | nil => simp [pyMax] at h
  | cons x xs =>
    simp only [pyMax, Option.some.injEq] at h
    subst h
    rcases foldl_max_mem xs x with h2 | h2
    · rw [h2]; exact List.mem_cons_self x xs
    · exact List.mem_cons_of_mem x h2

theorem find_gen_eq {l : List GenerationPokemonForm}
    {r : GenerationPokemonForm} (hnd : (generationKeys l).Nodup) (hm : r ∈ l) :
    l.find? (fun x => x.generation_id == r.generation_id) = some r := by
  induction l with
  | nil => cases hm
  | cons y ys ih =>
    simp only [generationKeys, List.map_cons, List.nodup_cons] at hnd
    rcases List.mem_cons.mp hm with h | h
    · subst h
      exact List.find?_cons_of_pos ys (by simp)
    · have hne : (y.generation_id == r.generation_id) = false := by
        apply beq_eq_false_iff_ne.mpr
        intro he
        apply hnd.1
        rw [he]
        exact List.mem_map_of_mem (fun x => x.generation_id) h
      rw [List.find?_cons_of_neg ys (by simp [hne])]
      exact ih hnd.2 h

theorem lookup_map_gen {l : List GenerationPokemonForm}
    {r : GenerationPokemonForm} (hnd : (generationKeys l).Nodup) (hm : r ∈ l) :
    (l.map (fun x => (x.generation_id, x.types))).lookup r.generation_id
      = some r.types := by
  induction l with
  | nil => cases hm
  | cons y ys ih =>
    simp only [generationKeys, List.map_cons, List.nodup_cons] at hnd
    rcases List.mem_cons.mp hm with h | h
    · subst h
      simp [List.lookup]
    · have hne : (r.generation_id == y.generation_id) = false := by
        apply beq_eq_false_iff_ne.mpr
        intro he
        apply hnd.1
        rw [← he]
        exact List.mem_map_of_mem (fun x => x.generation_id) h
      rw [List.map_cons, List.lookup, hne]
      exact ih hnd.2 h

theorem mem_byGenerationOf {rows : List GenerationPokemonForm}
    {pid fid : Nat} {r : GenerationPokemonForm} (h : r ∈ rows)
    (hp : r.pokemon_id = pid) (hf : r.form_id = fid) :
    r ∈ byGenerationOf rows pid fid := by
  simp [byGenerationOf, List.mem_filter, h, hp, hf]

theorem types_eq_of_current (s : Option Nat)
    {rows : List GenerationPokemonForm} {pid fid g : Nat}
    {a : GenerationPokemonForm}
    (hnd : (generationKeys (byGenerationOf rows pid fid)).Nodup)
    (hexpr : current_generation_id_expr s rows pid fid = some g)
    (ha : a ∈ byGenerationOf rows pid fid) (hgid : a.generation_id = g) :
    PokemonForm.types s rows pid fid = some a.types := by
  subst hgid
  simp only [PokemonForm.types, current_gpf, hexpr]
  rw [find_gen_eq hnd ha]
  rfl

/-- Claim C1: the `types` accessor resolves a single current generation by
coalescing — when an ambient generation id is set on the session it uses the
`GenerationPokemonForm` row of this form matching that generation id and
returns its ordered type list, and when no ambient generation is set it uses
the row whose `generation_id` is the maximum over all rows of the form. -/
theorem types_current_generation (rows : List GenerationPokemonForm)
    (pid fid : Nat)
    (hnd : (generationKeys (byGenerationOf rows pid fid)).Nodup) :
    (∀ (g : Nat) (r : GenerationPokemonForm), r ∈ rows → r.pokemon_id = pid →
        r.form_id = fid → r.generation_id = g →
        PokemonForm.types (some g) rows pid fid = some r.types) ∧
    (∀ (m : Nat) (r : GenerationPokemonForm),
        pyMax (generationKeys (byGenerationOf rows pid fid)) = some m →
        r ∈ rows → r.pokemon_id = pid → r.form_id = fid →
        r.generation_id = m →
        PokemonForm.types none rows pid fid = some r.types) := by
  constructor
  · intro g r hr hp hf hg
    exact types_eq_of_current (some g) hnd rfl (mem_byGenerationOf hr hp hf) hg
  · intro m r hmax hr hp hf hg
    have hexpr : current_generation_id_expr none rows pid fid = some m := by
      simpa [current_generation_id_expr, coalesce] using hmax
    exact types_eq_of_current none hnd hexpr (mem_byGenerationOf hr hp hf) hg

/-- Claim C1, witness: a form with rows in generations 1, 3 and 5 carrying
type lists `[10]`, `[20, 30]` and `[40]` — with no ambient generation `types`
returns the generation 5 list, and with ambient generation 3 it returns the
generation 3 list. -/
theorem types_current_generation_witness :
    PokemonForm.types none rows135 7 2 = some [40] ∧
    PokemonForm.types (some 3) rows135 7 2 = some [20, 30] :=
  ⟨(types_current_generation rows135 7 2 (by decide)).2 5 ⟨5, 7, 2, [40]⟩
      (by decide) (by decide) rfl rfl rfl,
   (types_current_generation rows135 7 2 (by decide)).1 3 ⟨3, 7, 2, [20, 30]⟩
      (by decide) rfl rfl rfl⟩

/-- Claim C2, counterexample: on a form with no generation rows and no
ambient generation the two implementations of the coalescing rule diverge —
the in-memory getter raises (Python `max` over an empty sequence, modelled as
`Except.error`) and so resolves no generation id at all, while the query
expression resolves the well-defined SQL `NULL`. -/
theorem current_generation_divergence :
    current_generation_id_mem none (byGenerationOf [] 1 1)
        = Except.error "max() arg is an empty sequence" ∧
    current_generation_id_expr none [] 1 1 = none ∧
    ¬ ∃ g : Nat,
        current_generation_id_mem none (byGenerationOf [] 1 1)
          = Except.ok g :=
  ⟨rfl, rfl, fun ⟨_, hg⟩ => Except.noConfusion hg⟩

/-- Claim C2 (amended): wherever the in-memory getter succeeds the two paths
resolve the same current generation id, and the in-memory getter succeeds
exactly where the query expression is non-`NULL`; equivalently, forgetting
the exception message, the in-memory computation over the loaded
`_by_generation` rows of a form equals the query expression
`coalesce(bindparam, MAX-subquery)` over the table, for every table state,
form and ambient value. -/
theorem current_generation_mem_expr_agree (s : Option Nat)
    (rows : List GenerationPokemonForm) (pid fid : Nat) :
    exceptToOption (current_generation_id_mem s (byGenerationOf rows pid fid))
      = current_generation_id_expr s rows pid fid := by
  cases s with
  | some g => rfl
  | none =>
    simp only [current_generation_id_mem, current_generation_id_expr, coalesce]
    cases pyMax (generationKeys (byGenerationOf rows pid fid)) <;> rfl

/-- Claim C3: the source writes the composite foreign key
`(game_id, generation_id) -> (games.id, games.generation_id)` into an
attribute spelled `__tableargs__`, which the declarative mapper never reads;
the constraint is therefore not attached, and a `GamePokemonForm` row whose
`generation_id` differs from the generation of its game is accepted.  Here
game 1 belongs to generation 1, yet a row for game 1 claiming generation 2
passes every declared check. -/
theorem game_generation_mismatch_accepted :
    (∃ g ∈ db3.games, g.id = 1 ∧ g.generation_id ≠ 2) ∧
    (insertGamePokemonForm db3 ⟨1, 1, 1, 2, none⟩).isSome = true := by
  decide

/-- Claim C4: when the ambient generation id matches no
`GenerationPokemonForm` row of the form — a generation the form skipped, or
one that does not exist at all — the `types` accessor returns the absent
list as a normal outcome. -/
theorem types_missing_generation (rows : List GenerationPokemonForm)
    (pid fid g : Nat)
    (h : ∀ r : GenerationPokemonForm, r ∈ rows → r.pokemon_id = pid →
        r.form_id = fid → r.generation_id ≠ g) :
    PokemonForm.types (some g) rows pid fid = none := by
  have hfind : (byGenerationOf rows pid fid).find?
      (fun r => r.generation_id == g) = none := by
    apply List.find?_eq_none.mpr
    intro x hx
    have hx2 := List.mem_filter.mp hx
    simp only [Bool.and_eq_true, beq_iff_eq] at hx2
    simp only [beq_iff_eq]
    exact h x hx2.1 hx2.2.1 hx2.2.2
  simp only [PokemonForm.types, current_gpf, current_generation_id_expr,
    coalesce, hfind]
  rfl

/-- Claim C4, witness: ambient generation 2 on the form that appears only in
generations 1, 3 and 5 yields the absent list. -/
theorem types_missing_generation_witness :
    PokemonForm.types (some 2) rows135 7 2 = none :=
  types_missing_generation rows135 7 2 2 (by decide)

/-- Claim C5, counterexample: the in-memory max-generation fallback is not
total — on a form with no `GenerationPokemonForm` rows and no ambient
generation, Python `max()` over the empty key set raises `ValueError`
(modelled as `Except.error`), so an exception does escape that computation. -/
theorem current_generation_id_mem_empty_raises :
    current_generation_id_mem none []
      = Except.error "max() arg is an empty sequence" := rfl

/-- Claim C5 (amended): on a form with no `GenerationPokemonForm` rows,
accessing `types` yields the absent list as a normal outcome for every
ambient value, because the relationship loads through the query expression,
where `coalesce(NULL, MAX over the empty set)` is `NULL` and matches no row;
the fallback is total on that expression path, while the in-memory
`_current_generation_id` getter raises there. -/
theorem types_no_generations_empty (s : Option Nat)
    (rows : List GenerationPokemonForm) (pid fid : Nat)
    (h : byGenerationOf rows pid fid = []) :
    PokemonForm.types s rows pid fid = none ∧
    current_generation_id_expr none rows pid fid = none := by
  constructor
  · cases s with
    | none =>
      simp [PokemonForm.types, current_gpf, current_generation_id_expr,
        coalesce, h, generationKeys, pyMax]
    | some g =>
      simp [PokemonForm.types, current_gpf, current_generation_id_expr,
        coalesce, h]
  · simp [current_generation_id_expr, coalesce, h, generationKeys, pyMax]

/-- Claim C5, witness: form `(7, 3)` has no generation rows in the fixture;
`types` with no ambient generation is absent and the expression is `NULL`. -/
theorem types_no_generations_empty_witness :
    PokemonForm.types none rows135 7 3 = none ∧
    current_generation_id_expr none rows135 7 3 = none :=
  types_no_generations_empty none rows135 7 3 (by decide)

/-- Claim C6: `GenerationPokemonForm` attaches `pokemon_form_key()` through
`__table_args__`, so a row whose `(pokemon_id, form_id)` has no matching
`PokemonForm` row is rejected; but `GamePokemonForm` writes its composite
chain into the misspelled `__tableargs__`, so the analogous
`GamePokemonForm` row is accepted even though `pokemon_forms` has no row
`(9, 9)`. -/
theorem composite_chain_gpf_only :
    insertGenerationPokemonForm db6 ⟨4, 9, 9, []⟩ = none ∧
    (insertGamePokemonForm db6 ⟨1, 9, 9, 4, none⟩).isSome = true ∧
    db6.pokemon_forms.any
      (fun pf => pf.pokemon_id == 9 && pf.form_id == 9) = false := by
  decide

/-- Claim C7: `all_types` exposes the full mapping from every generation the
form appears in to that generation type list — its keys are exactly the
generation ids of the rows of the form, every row of the form is found under
its generation id, and the accessor reads no ambient generation context (it
takes none as input). -/
theorem all_types_full_mapping (rows : List GenerationPokemonForm)
    (pid fid : Nat)
    (hnd : (generationKeys (byGenerationOf rows pid fid)).Nodup) :
    (PokemonForm.all_types rows pid fid).map Prod.fst
        = generationKeys (byGenerationOf rows pid fid) ∧
    (∀ r : GenerationPokemonForm, r ∈ rows → r.pokemon_id = pid →
        r.form_id = fid →
        (PokemonForm.all_types rows pid fid).lookup r.generation_id
          = some r.types) := by
  constructor
  · simp [PokemonForm.all_types, generationKeys, List.map_map, Function.comp]
  · intro r hr hp hf
    exact lookup_map_gen hnd (mem_byGenerationOf hr hp hf)

/-- Claim C7, witness: for the form with rows in generations 1, 3 and 5 the
mapping is exactly `{1 : [10], 3 : [20, 30], 5 : [40]}`. -/
theorem all_types_full_mapping_witness :
    PokemonForm.all_types rows135 7 2 = [(1, [10]), (3, [20, 30]), (5, [40])] ∧
    (PokemonForm.all_types rows135 7 2).lookup 3 = some [20, 30] :=
  ⟨by decide,
   (all_types_full_mapping rows135 7 2 (by decide)).2 ⟨3, 7, 2, [20, 30]⟩
     (by decide) rfl rfl⟩

/-- Claim C8: localized name lookup by language id reports not-found when the
requested language has no row and no fallback language is configured, and
returns the fallback language row when one is configured and has a row. -/
theorem byLanguage_fallback (names : List (Nat × String)) (lang : Nat)
    (h : names.lookup lang = none) :
    byLanguageLookup names none lang = NameLookup.notFound ∧
    (∀ (f : Nat) (n : String), names.lookup f = some n →
        byLanguageLookup names (some f) lang = NameLookup.found n) := by
  constructor
  · simp [byLanguageLookup, h]
  · intro f n hf
    simp [byLanguageLookup, h, hf]

/-- Claim C8, witness: language 2 has no row in the fixture; with no fallback
the lookup is not-found, and with fallback language 9 it returns the language
9 name. -/
theorem byLanguage_fallback_witness :
    byLanguageLookup names1 none 2 = NameLookup.notFound ∧
    byLanguageLookup names1 (some 9) 2 = NameLookup.found "Bulbasaur" :=
  ⟨(byLanguage_fallback names1 2 (by decide)).1,
   (byLanguage_fallback names1 2 (by decide)).2 9 "Bulbasaur" (by decide)⟩

/-- Claim C9: the exactly-one-default-form-per-species invariant is a data
invariant, not a declared constraint, and the read accessors — pure
functions of the database state, modelled with explicit state passing —
leave the state, and with it the invariant, untouched. -/
theorem reads_preserve_default_invariant (db : DB) (s : Option Nat)
    (pid fid : Nat) (h : exactlyOneDefaultForm db.pokemon_forms = true) :
    (readTypes db s pid fid).2 = db ∧
    exactlyOneDefaultForm (readTypes db s pid fid).2.pokemon_forms = true ∧
    (readAllTypes db pid fid).2 = db ∧
    exactlyOneDefaultForm (readAllTypes db pid fid).2.pokemon_forms = true :=
  ⟨rfl, h, rfl, h⟩

/-- Claim C9, witness: the fixture database satisfies the invariant and a
`types` read leaves it intact. -/
theorem reads_preserve_default_invariant_witness :
    exactlyOneDefaultForm db3.pokemon_forms = true ∧
    (readTypes db3 none 1 1).2 = db3 :=
  ⟨by decide, (reads_preserve_default_invariant db3 none 1 1 (by decide)).1⟩

/-- Claim C10: the two accessors agree pointwise — with no ambient
generation, `types` equals `all_types` at the maximum key, and with an
ambient generation that is a key of `all_types`, `types` equals `all_types`
at that key. -/
theorem types_all_types_agree (rows : List GenerationPokemonForm)
    (pid fid : Nat)
    (hnd : (generationKeys (byGenerationOf rows pid fid)).Nodup) :
    (∀ m : Nat, pyMax (generationKeys (byGenerationOf rows pid fid)) = some m →
        PokemonForm.types none rows pid fid
          = (PokemonForm.all_types rows pid fid).lookup m) ∧
    (∀ g : Nat, g ∈ generationKeys (byGenerationOf rows pid fid) →
        PokemonForm.types (some g) rows pid fid
          = (PokemonForm.all_types rows pid fid).lookup g) := by
  constructor
  · intro m hmax
    obtain ⟨r, hr, hgid⟩ := List.mem_map.mp (pyMax_mem hmax)
    have hexpr : current_generation_id_expr none rows pid fid = some m := by
      simpa [current_generation_id_expr, coalesce] using hmax
    rw [types_eq_of_current none hnd hexpr hr hgid, ← hgid]
    exact (lookup_map_gen hnd hr).symm
  · intro g hg
    obtain ⟨r, hr, hgid⟩ := List.mem_map.mp hg
    rw [types_eq_of_current (some g) hnd rfl hr hgid, ← hgid]
    exact (lookup_map_gen hnd hr).symm

/-- Claim C10, witness: on the generations 1, 3, 5 fixture, `types` with no
ambient generation equals `all_types` at key 5, and with ambient generation
3 equals `all_types` at key 3. -/
theorem types_all_types_agree_witness :
    PokemonForm.types none rows135 7 2
        = (PokemonForm.all_types rows135 7 2).lookup 5 ∧
    PokemonForm.types (some 3) rows135 7 2
        = (PokemonForm.all_types rows135 7 2).lookup 3 :=
  ⟨(types_all_types_agree rows135 7 2 (by decide)).1 5 (by decide),
   (types_all_types_agree rows135 7 2 (by decide)).2 3 (by decide)⟩
